import Mathlib

/-!
Shallow embedding of `src/ELIMINADOR-IPS-PRIVADAS.py`.

The core of the program is the classifier `es_ip_privada`, which strips the
input string, parses it with Python's `ipaddress.ip_address`, and returns
`True` when the parsed address is private, reserved, loopback, link-local,
multicast, or (for IPv6) site-local, and `True` as well when parsing fails.
The filter `filtrar_ips_publicas` keeps the set elements that are not
`es_ip_privada` and returns them sorted (Python `sorted`, lexicographic by
code point).

The parsing functions and the range predicates below are translated from
CPython's `Lib/ipaddress.py` (the 3.11/3.12 semantics, which is the
interpreter family the script targets): `_parse_octet`, the IPv4 and IPv6
`_ip_int_from_string`, `_parse_hextet`, `_split_scope_id`, and the
`_IPv4Constants` / `_IPv6Constants` network lists.  Strings are handled as
their underlying character lists; a parse failure (Python `ValueError`)
is `none`.
-/

namespace Eliminador

/-- The whitespace characters stripped by Python's `str.strip()`
(ASCII whitespace, the C1 separators, and the Unicode space characters). -/
def isPySpace (c : Char) : Bool :=
  c = ' ' || c = '\t' || c = '\n' || c = '\x0b' || c = '\x0c' || c = '\r' ||
  c = '\x1c' || c = '\x1d' || c = '\x1e' || c = '\x1f' ||
  c = '\x85' || c = '\xa0' || c = '\u1680' ||
  ('\u2000' ≤ c && c ≤ '\u200a') ||
  c = '\u2028' || c = '\u2029' || c = '\u202f' || c = '\u205f' || c = '\u3000'

/-- Python `str.strip()`: drop leading and trailing whitespace. -/
def pyStrip (l : List Char) : List Char :=
  ((l.dropWhile isPySpace).reverse.dropWhile isPySpace).reverse

/-- Python `str.split(sep)` for a one-character separator: splitting the
empty string gives `[""]`, and consecutive separators give empty fields. -/
def splitChar (sep : Char) : List Char → List (List Char)
  | [] => [[]]
  | c :: cs =>
    if c = sep then [] :: splitChar sep cs
    else
      match splitChar sep cs with
      | [] => [[c]]
      | h :: t => (c :: h) :: t

/-- Python `str.partition(sep)` for a one-character separator, keeping only
whether the separator occurred and what follows its first occurrence. -/
def splitFirst (sep : Char) : List Char → List Char × Option (List Char)
  | [] => ([], none)
  | c :: cs =>
    if c = sep then ([], some cs)
    else
      let r := splitFirst sep cs
      (c :: r.1, r.2)

def isDecDigit (c : Char) : Bool := '0' ≤ c && c ≤ '9'

def isHexDigitPy (c : Char) : Bool :=
  isDecDigit c || ('a' ≤ c && c ≤ 'f') || ('A' ≤ c && c ≤ 'F')

def decDigitVal (c : Char) : Nat := c.toNat - '0'.toNat

def hexDigitVal (c : Char) : Nat :=
  if isDecDigit c then decDigitVal c
  else if 'a' ≤ c then c.toNat - 'a'.toNat + 10
  else c.toNat - 'A'.toNat + 10

def decVal (l : List Char) : Nat := l.foldl (fun a c => 10 * a + decDigitVal c) 0

def hexVal (l : List Char) : Nat := l.foldl (fun a c => 16 * a + hexDigitVal c) 0

/-- CPython `IPv4Address._parse_octet`: non-empty, ASCII decimal digits only,
at most 3 characters, no leading zero (except the octet `"0"` itself),
value at most 255. -/
def parseOctet (s : List Char) : Option Nat :=
  if s.isEmpty then none
  else if !(s.all isDecDigit) then none
  else if s.length > 3 then none
  else if s ≠ ['0'] && s.head? = some '0' then none
  else if decVal s > 255 then none
  else some (decVal s)

/-- CPython `IPv4Address._ip_int_from_string`: reject the empty string,
split on `'.'` into exactly 4 octets, each parsed by `parseOctet`,
assembled big-endian. -/
def parseIPv4Int (s : List Char) : Option Nat :=
  if s.isEmpty then none
  else
    match splitChar '.' s with
    | [a, b, c, d] =>
      match parseOctet a, parseOctet b, parseOctet c, parseOctet d with
      | some x, some y, some z, some w =>
        some (((x * 256 + y) * 256 + z) * 256 + w)
      | _, _, _, _ => none
    | _ => none

/-- CPython `IPv4Address.__init__` on a string: reject `'/'`, then parse. -/
def parseIPv4 (s : List Char) : Option Nat :=
  if s.contains '/' then none else parseIPv4Int s

/-- CPython `IPv6Address._parse_hextet`: hex digits only, at most 4 of them,
non-empty (the empty string makes `int(s, 16)` raise). -/
def parseHextet (s : List Char) : Option Nat :=
  if !(s.all isHexDigitPy) then none
  else if s.length > 4 then none
  else if s.isEmpty then none
  else some (hexVal s)

/-- Python `'%x' % n`: lowercase hexadecimal digits of `n`. -/
def hexStr (n : Nat) : List Char := Nat.toDigits 16 n

/-- The embedded-IPv4 step of CPython `IPv6Address._ip_int_from_string`:
when the last `':'`-separated part contains a `'.'`, parse it as a full
IPv4 address and replace it by its two 16-bit halves printed with `'%x'`. -/
def expandV4 (parts : List (List Char)) : Option (List (List Char)) :=
  match parts.getLast? with
  | none => none
  | some last =>
    if last.contains '.' then
      match parseIPv4 last with
      | none => none
      | some v =>
        some (parts.dropLast ++ [hexStr (v / 65536), hexStr (v % 65536)])
    else some parts

/-- Index (in the whole `parts` list) of the first empty interior part, the
`skip_index` of CPython's scan `for i in range(1, len(parts) - 1)`. -/
def firstEmptyIdx (interior : List (List Char)) : Option Nat :=
  match interior.findIdx? List.isEmpty with
  | none => none
  | some i => some (i + 1)

/-- CPython `IPv6Address._ip_int_from_string`: split on `':'`, expand an
embedded IPv4 suffix, locate the at-most-one `'::'`, check the leading and
trailing colon rules, and assemble the 8 hextets big-endian with the
elided ones zero. -/
def parseIPv6Int (s : List Char) : Option Nat :=
  if s.isEmpty then none
  else
    let parts0 := splitChar ':' s
    if parts0.length < 3 then none
    else
      match expandV4 parts0 with
      | none => none
      | some parts =>
        if parts.length > 9 then none
        else
          let interior := (parts.drop 1).dropLast
          if 2 ≤ (interior.filter List.isEmpty).length then none
          else
            match firstEmptyIdx interior with
            | some skipIdx =>
              let hi0 := skipIdx
              let lo0 := parts.length - skipIdx - 1
              let headEmpty := (parts.head?.getD []).isEmpty
              let lastEmpty := (parts.getLast?.getD []).isEmpty
              if headEmpty && hi0 - 1 ≠ 0 then none
              else if lastEmpty && lo0 - 1 ≠ 0 then none
              else
                let hi := if headEmpty then hi0 - 1 else hi0
                let lo := if lastEmpty then lo0 - 1 else lo0
                if hi + lo ≥ 8 then none
                else
                  let skipped := 8 - (hi + lo)
                  match (parts.take hi).mapM parseHextet,
                        (parts.drop (parts.length - lo)).mapM parseHextet with
                  | some hiVals, some loVals =>
                    let hiInt := hiVals.foldl (fun a h => a * 65536 + h) 0
                    some (loVals.foldl (fun a h => a * 65536 + h)
                      (hiInt * 65536 ^ skipped))
                  | _, _ => none
            | none =>
              if parts.length ≠ 8 then none
              else if (parts.head?.getD []).isEmpty then none
              else if (parts.getLast?.getD []).isEmpty then none
              else
                match parts.mapM parseHextet with
                | some vals => some (vals.foldl (fun a h => a * 65536 + h) 0)
                | none => none

/-- CPython `IPv6Address.__init__` on a string: reject `'/'`, split off an
optional `%scope_id` (which must be non-empty and `'%'`-free), then parse. -/
def parseIPv6 (s : List Char) : Option Nat :=
  if s.contains '/' then none
  else
    match splitFirst '%' s with
    | (addr, none) => parseIPv6Int addr
    | (addr, some scope) =>
      if scope.isEmpty || scope.contains '%' then none
      else parseIPv6Int addr

/-- A parsed address: the result type of `ipaddress.ip_address`. -/
inductive IP where
  | v4 (n : Nat)
  | v6 (n : Nat)
deriving DecidableEq

/-- `ipaddress.ip_address`: try IPv4, then IPv6, else fail (`ValueError`). -/
def ip_address (s : List Char) : Option IP :=
  match parseIPv4 s with
  | some n => some (IP.v4 n)
  | none =>
    match parseIPv6 s with
    | some n => some (IP.v6 n)
    | none => none

/-- Membership of a 32-bit value in an IPv4 network `base/plen`. -/
def inNet4 (n base plen : Nat) : Bool :=
  n / 2 ^ (32 - plen) == base / 2 ^ (32 - plen)

/-- Membership of a 128-bit value in an IPv6 network `base/plen`. -/
def inNet6 (n base plen : Nat) : Bool :=
  n / 2 ^ (128 - plen) == base / 2 ^ (128 - plen)

def v4val (a b c d : Nat) : Nat := ((a * 256 + b) * 256 + c) * 256 + d

def v6val (h0 h1 h2 h3 h4 h5 h6 h7 : Nat) : Nat :=
  ((((((h0 * 65536 + h1) * 65536 + h2) * 65536 + h3) * 65536 + h4) * 65536
      + h5) * 65536 + h6) * 65536 + h7

/-- CPython `_IPv4Constants._private_networks`. -/
def is_private4 (n : Nat) : Bool :=
  inNet4 n (v4val 0 0 0 0) 8 ||
  inNet4 n (v4val 10 0 0 0) 8 ||
  inNet4 n (v4val 127 0 0 0) 8 ||
  inNet4 n (v4val 169 254 0 0) 16 ||
  inNet4 n (v4val 172 16 0 0) 12 ||
  inNet4 n (v4val 192 0 0 0) 29 ||
  inNet4 n (v4val 192 0 0 170) 31 ||
  inNet4 n (v4val 192 0 2 0) 24 ||
  inNet4 n (v4val 192 168 0 0) 16 ||
  inNet4 n (v4val 198 18 0 0) 15 ||
  inNet4 n (v4val 198 51 100 0) 24 ||
  inNet4 n (v4val 203 0 113 0) 24 ||
  inNet4 n (v4val 240 0 0 0) 4 ||
  inNet4 n (v4val 255 255 255 255) 32

/-- CPython `_IPv4Constants._reserved_network` (`240.0.0.0/4`). -/
def is_reserved4 (n : Nat) : Bool := inNet4 n (v4val 240 0 0 0) 4

/-- CPython `IPv4Address.is_loopback` (`127.0.0.0/8`). -/
def is_loopback4 (n : Nat) : Bool := inNet4 n (v4val 127 0 0 0) 8

/-- CPython `IPv4Address.is_link_local` (`169.254.0.0/16`). -/
def is_link_local4 (n : Nat) : Bool := inNet4 n (v4val 169 254 0 0) 16

/-- CPython `IPv4Address.is_multicast` (`224.0.0.0/4`). -/
def is_multicast4 (n : Nat) : Bool := inNet4 n (v4val 224 0 0 0) 4

/-- CPython `_IPv6Constants._private_networks`. -/
def is_private6 (n : Nat) : Bool :=
  inNet6 n 1 128 ||
  inNet6 n 0 128 ||
  inNet6 n (v6val 0 0 0 0 0 0xffff 0 0) 96 ||
  inNet6 n (v6val 0x100 0 0 0 0 0 0 0) 64 ||
  inNet6 n (v6val 0x2001 0 0 0 0 0 0 0) 23 ||
  inNet6 n (v6val 0x2001 2 0 0 0 0 0 0) 48 ||
  inNet6 n (v6val 0x2001 0xdb8 0 0 0 0 0 0) 32 ||
  inNet6 n (v6val 0x2001 0x10 0 0 0 0 0 0) 28 ||
  inNet6 n (v6val 0xfc00 0 0 0 0 0 0 0) 7 ||
  inNet6 n (v6val 0xfe80 0 0 0 0 0 0 0) 10

/-- CPython `_IPv6Constants._reserved_networks`. -/
def is_reserved6 (n : Nat) : Bool :=
  inNet6 n 0 8 ||
  inNet6 n (v6val 0x100 0 0 0 0 0 0 0) 8 ||
  inNet6 n (v6val 0x200 0 0 0 0 0 0 0) 7 ||
  inNet6 n (v6val 0x400 0 0 0 0 0 0 0) 6 ||
  inNet6 n (v6val 0x800 0 0 0 0 0 0 0) 5 ||
  inNet6 n (v6val 0x1000 0 0 0 0 0 0 0) 4 ||
  inNet6 n (v6val 0x4000 0 0 0 0 0 0 0) 3 ||
  inNet6 n (v6val 0x6000 0 0 0 0 0 0 0) 3 ||
  inNet6 n (v6val 0x8000 0 0 0 0 0 0 0) 3 ||
  inNet6 n (v6val 0xa000 0 0 0 0 0 0 0) 3 ||
  inNet6 n (v6val 0xc000 0 0 0 0 0 0 0) 3 ||
  inNet6 n (v6val 0xe000 0 0 0 0 0 0 0) 4 ||
  inNet6 n (v6val 0xf000 0 0 0 0 0 0 0) 5 ||
  inNet6 n (v6val 0xf800 0 0 0 0 0 0 0) 6 ||
  inNet6 n (v6val 0xfe00 0 0 0 0 0 0 0) 9

/-- CPython `IPv6Address.is_loopback` (`self._ip == 1`). -/
def is_loopback6 (n : Nat) : Bool := n == 1

/-- CPython `IPv6Address.is_link_local` (`fe80::/10`). -/
def is_link_local6 (n : Nat) : Bool := inNet6 n (v6val 0xfe80 0 0 0 0 0 0 0) 10

/-- CPython `IPv6Address.is_multicast` (`ff00::/8`). -/
def is_multicast6 (n : Nat) : Bool := inNet6 n (v6val 0xff00 0 0 0 0 0 0 0) 8

/-- CPython `IPv6Address.is_site_local` (`fec0::/10`). -/
def is_site_local6 (n : Nat) : Bool := inNet6 n (v6val 0xfec0 0 0 0 0 0 0 0) 10

def IP.is_private : IP → Bool
  | .v4 n => is_private4 n
  | .v6 n => is_private6 n

def IP.is_reserved : IP → Bool
  | .v4 n => is_reserved4 n
  | .v6 n => is_reserved6 n

def IP.is_loopback : IP → Bool
  | .v4 n => is_loopback4 n
  | .v6 n => is_loopback6 n

def IP.is_link_local : IP → Bool
  | .v4 n => is_link_local4 n
  | .v6 n => is_link_local6 n

def IP.is_multicast : IP → Bool
  | .v4 n => is_multicast4 n
  | .v6 n => is_multicast6 n

/-- `isinstance(ip, ipaddress.IPv6Address)`. -/
def IP.isV6 : IP → Bool
  | .v4 _ => false
  | .v6 _ => true

/-- `is_site_local` exists only on `IPv6Address`; the code guards it with
`isinstance`, so on IPv4 the conjunct is `False`. -/
def IP.site_local_check : IP → Bool
  | .v4 _ => false
  | .v6 n => is_site_local6 n

/-- The disjunction of range checks in the `try` body of `es_ip_privada`
(lines 28-35 of the source). -/
def privChecks (ip : IP) : Bool :=
  ip.is_private || ip.is_reserved || ip.is_loopback || ip.is_link_local ||
  ip.is_multicast || (ip.isV6 && ip.site_local_check)

/-- `es_ip_privada` (source lines 14-39): strip, parse, and test the ranges;
a parse failure (`ValueError`) returns `True`. -/
def es_ip_privada (ip_str : String) : Bool :=
  match ip_address (pyStrip ip_str.data) with
  | some ip => privChecks ip
  | none => true

/-- The spec's `is_public`, the negation of `es_ip_privada`. -/
def is_public (raw : String) : Bool := ! es_ip_privada raw

/-- Python string comparison: lexicographic on the code points. -/
def charListLe : List Char → List Char → Bool
  | [], _ => true
  | _ :: _, [] => false
  | a :: as, b :: bs =>
    if a.toNat < b.toNat then true
    else if b.toNat < a.toNat then false
    else charListLe as bs

/-- Python `s <= t` on strings (code-point lexicographic order), the order
used by `sorted`. -/
def pyLe (a b : String) : Bool := charListLe a.data b.data

/-- The comparison relation of Python `sorted` on strings. -/
def pyOrd (a b : String) : Prop := pyLe a b = true

instance : DecidableRel pyOrd := fun a b => instDecidableEqBool (pyLe a b) true

/-- `filtrar_ips_publicas` (source lines 122-142): keep the non-private
strings and return them sorted (Python `sorted`, lexicographic by code
point).  The input set is represented by a list of its elements in
iteration order. -/
def filtrar_ips_publicas (ips : List String) : List String :=
  (ips.filter (fun ip => ! es_ip_privada ip)).insertionSort pyOrd

/-- `ip_str.strip()` as a `String`-level operation. -/
def pyStripStr (s : String) : String := String.mk (pyStrip s.data)

theorem pyStrip_eq_rdrop (l : List Char) :
    pyStrip l = List.rdropWhile isPySpace (List.dropWhile isPySpace l) := rfl

theorem head?_rdropWhile_of_ne_nil {p : Char → Bool} {A : List Char}
    (h : List.rdropWhile p A ≠ []) :
    (List.rdropWhile p A).head? = A.head? := by
  obtain ⟨t, ht⟩ := List.dropWhile_suffix (l := A.reverse) p
  have hA : List.rdropWhile p A ++ t.reverse = A := by
    have h2 := congrArg List.reverse ht
    simpa [List.rdropWhile] using h2
  rcases hR : List.rdropWhile p A with _ | ⟨c, cs⟩
  · exact absurd hR h
  · rw [← hA, hR]
    simp

theorem dropWhile_rdropWhile_dropWhile (p : Char → Bool) (l : List Char) :
    List.dropWhile p (List.rdropWhile p (List.dropWhile p l))
      = List.rdropWhile p (List.dropWhile p l) := by
  rcases hR : List.rdropWhile p (List.dropWhile p l) with _ | ⟨c, cs⟩
  · simp
  · have hne : List.rdropWhile p (List.dropWhile p l) ≠ [] := by simp [hR]
    have hhead := head?_rdropWhile_of_ne_nil hne
    rw [hR] at hhead
    have hA1 : List.dropWhile p (List.dropWhile p l) = List.dropWhile p l :=
      List.dropWhile_idempotent p l
    have hpc : p c = false := by
      rcases hAcase : List.dropWhile p l with _ | ⟨a, as⟩
      · rw [hAcase] at hhead; simp at hhead
      · rw [hAcase] at hhead
        simp only [List.head?_cons, Option.some.injEq] at hhead
        subst hhead
        rw [hAcase] at hA1
        by_cases hp : p c
        · rw [List.dropWhile_cons_of_pos hp] at hA1
          have hlen := congrArg List.length hA1
          have := (List.dropWhile_sublist (l := as) p).length_le
          simp at hlen
          omega
        · simpa using hp
    rw [List.dropWhile_cons_of_neg (by simp [hpc])]

theorem pyStrip_idem (l : List Char) : pyStrip (pyStrip l) = pyStrip l := by
  rw [pyStrip_eq_rdrop, pyStrip_eq_rdrop, dropWhile_rdropWhile_dropWhile,
      List.rdropWhile_idempotent]

theorem charListLe_total : ∀ xs ys, charListLe xs ys = true ∨ charListLe ys xs = true
  | [], _ => Or.inl rfl
  | _ :: _, [] => Or.inr rfl
  | x :: xs, y :: ys => by
    by_cases h1 : x.toNat < y.toNat
    · left; simp [charListLe, h1]
    · by_cases h2 : y.toNat < x.toNat
      · right; simp [charListLe, h2]
      · have ih := charListLe_total xs ys
        simpa [charListLe, h1, h2] using ih

theorem charListLe_trans : ∀ xs ys zs, charListLe xs ys = true →
    charListLe ys zs = true → charListLe xs zs = true
  | [], _, _, _, _ => rfl
  | _ :: _, [], _, h, _ => by simp [charListLe] at h
  | _ :: _, _ :: _, [], _, h => by simp [charListLe] at h
  | x :: xs, y :: ys, z :: zs, h1, h2 => by
    simp only [charListLe] at h1 h2 ⊢
    by_cases hxy : x.toNat < y.toNat
    · by_cases hyz : y.toNat < z.toNat
      · simp [show x.toNat < z.toNat by omega]
      · by_cases hzy : z.toNat < y.toNat
        · simp [hyz, hzy] at h2
        · simp [show x.toNat < z.toNat by omega]
    · by_cases hyx : y.toNat < x.toNat
      · simp [hxy, hyx] at h1
      · simp only [hxy, hyx, if_false] at h1
        by_cases hyz : y.toNat < z.toNat
        · simp [show x.toNat < z.toNat by omega]
        · by_cases hzy : z.toNat < y.toNat
          · simp [hyz, hzy] at h2
          · simp only [hyz, hzy, if_false] at h2
            simp only [show ¬ x.toNat < z.toNat by omega,
              show ¬ z.toNat < x.toNat by omega, if_false]
            exact charListLe_trans xs ys zs h1 h2

theorem charListLe_antisymm : ∀ xs ys, charListLe xs ys = true →
    charListLe ys xs = true → xs = ys
  | [], [], _, _ => rfl
  | [], _ :: _, _, h2 => by simp [charListLe] at h2
  | _ :: _, [], h1, _ => by simp [charListLe] at h1
  | x :: xs, y :: ys, h1, h2 => by
    simp only [charListLe] at h1 h2
    by_cases hxy : x.toNat < y.toNat
    · simp [show ¬ y.toNat < x.toNat by omega, hxy] at h2
    · by_cases hyx : y.toNat < x.toNat
      · simp [hxy, hyx] at h1
      · simp only [hxy, hyx, if_false] at h1 h2
        have hn : x.toNat = y.toNat := by omega
        have hc : x = y := Char.ext (UInt32.toNat.inj hn)
        rw [hc, charListLe_antisymm xs ys h1 h2]

instance : IsTotal String pyOrd :=
  ⟨fun a b => charListLe_total a.data b.data⟩

instance : IsTrans String pyOrd :=
  ⟨fun a b c h1 h2 => charListLe_trans a.data b.data c.data h1 h2⟩

instance : IsAntisymm String pyOrd :=
  ⟨fun a b h1 h2 => by
    have h := charListLe_antisymm a.data b.data h1 h2
    cases a; cases b
    exact congrArg String.mk h⟩

/-- C1: for every input string that parses successfully as an IPv4 or IPv6
address, `is_public` returns `false` iff the parsed address lies in a
private, reserved, loopback, link-local, or multicast range, or — when the
parsed type is IPv6 — the deprecated site-local range; otherwise it
returns `true`. -/
theorem is_public_false_iff_ranges (s : String) (ip : IP)
    (h : ip_address (pyStrip s.data) = some ip) :
    is_public s = false ↔
      (ip.is_private || ip.is_reserved || ip.is_loopback || ip.is_link_local ||
        ip.is_multicast || (ip.isV6 && ip.site_local_check)) = true := by
  have he : es_ip_privada s = privChecks ip := by simp [es_ip_privada, h]
  simp only [is_public, he, Bool.not_eq_false']
  exact Iff.rfl

theorem is_public_false_iff_ranges_witness :
    ip_address (pyStrip ("8.8.8.8" : String).data) = some (IP.v4 134744072) ∧
      (is_public "8.8.8.8" = false ↔
        ((IP.v4 134744072).is_private || (IP.v4 134744072).is_reserved ||
          (IP.v4 134744072).is_loopback || (IP.v4 134744072).is_link_local ||
          (IP.v4 134744072).is_multicast ||
          ((IP.v4 134744072).isV6 && (IP.v4 134744072).site_local_check)) = true) :=
  ⟨by decide, is_public_false_iff_ranges "8.8.8.8" (IP.v4 134744072) (by decide)⟩

/-- C2: for every input string that fails to parse as an IPv4 or IPv6
address after trimming surrounding whitespace, `is_public` returns `false`:
the classifier fails closed on malformed input. -/
theorem is_public_parse_failure (s : String)
    (h : ip_address (pyStrip s.data) = none) : is_public s = false := by
  simp [is_public, es_ip_privada, h]

theorem is_public_parse_failure_witness :
    ip_address (pyStrip ("not-an-ip" : String).data) = none ∧
      is_public "not-an-ip" = false :=
  ⟨by decide, is_public_parse_failure "not-an-ip" (by decide)⟩

/-- C3: for every input set of strings (a duplicate-free list, in any
iteration order), `filtrar_ips_publicas` returns a list sorted in ascending
code-point lexicographic order with no duplicates, and the result does not
depend on the iteration order. -/
theorem filtrar_sorted_nodup_order_invariant (l₁ l₂ : List String)
    (hn : l₁.Nodup) (hp : l₁.Perm l₂) :
    (filtrar_ips_publicas l₁).Sorted pyOrd ∧ (filtrar_ips_publicas l₁).Nodup ∧
      filtrar_ips_publicas l₁ = filtrar_ips_publicas l₂ := by
  refine ⟨List.sorted_insertionSort pyOrd _, ?_, ?_⟩
  · exact (List.perm_insertionSort pyOrd _).symm.nodup
      (hn.filter (fun ip => ! es_ip_privada ip))
  · refine List.eq_of_perm_of_sorted ?_ (List.sorted_insertionSort pyOrd _)
      (List.sorted_insertionSort pyOrd _)
    exact (List.perm_insertionSort pyOrd _).trans
      ((hp.filter (fun ip => ! es_ip_privada ip)).trans
        (List.perm_insertionSort pyOrd _).symm)

theorem filtrar_sorted_nodup_order_invariant_witness :
    (["8.8.8.8", "10.0.0.1"] : List String).Nodup ∧
      (["8.8.8.8", "10.0.0.1"] : List String).Perm ["10.0.0.1", "8.8.8.8"] ∧
      ((filtrar_ips_publicas ["8.8.8.8", "10.0.0.1"]).Sorted pyOrd ∧
        (filtrar_ips_publicas ["8.8.8.8", "10.0.0.1"]).Nodup ∧
        filtrar_ips_publicas ["8.8.8.8", "10.0.0.1"]
          = filtrar_ips_publicas ["10.0.0.1", "8.8.8.8"]) :=
  ⟨by decide, List.Perm.swap "10.0.0.1" "8.8.8.8" [],
    filtrar_sorted_nodup_order_invariant ["8.8.8.8", "10.0.0.1"]
      ["10.0.0.1", "8.8.8.8"] (by decide) (List.Perm.swap "10.0.0.1" "8.8.8.8" [])⟩

/-- C4: a string is in the output of `filtrar_ips_publicas` iff it is in the
input and `is_public` holds of it, and the output length plus the number of
non-public input elements equals the input length: every element is
accounted for exactly once. -/
theorem filtrar_membership_and_count (l : List String) (a : String) :
    (a ∈ filtrar_ips_publicas l ↔ a ∈ l ∧ is_public a = true) ∧
      (filtrar_ips_publicas l).length +
        (l.filter (fun x => ! is_public x)).length = l.length := by
  constructor
  · rw [filtrar_ips_publicas, List.mem_insertionSort, List.mem_filter]
    simp [is_public]
  · rw [filtrar_ips_publicas, (List.perm_insertionSort pyOrd _).length_eq]
    simp only [is_public, Bool.not_not]
    rw [← List.countP_eq_length_filter, ← List.countP_eq_length_filter]
    have h := List.length_eq_countP_add_countP
      (p := fun x => ! es_ip_privada x) (l := l)
    simpa [Bool.not_not] using h.symm

/-- C5: `filtrar_ips_publicas` is idempotent — filtering an
already-filtered set changes nothing. -/
theorem filtrar_idempotent (x : List String) :
    filtrar_ips_publicas (filtrar_ips_publicas x) = filtrar_ips_publicas x := by
  have hall : ∀ a ∈ filtrar_ips_publicas x, (! es_ip_privada a) = true := by
    intro a ha
    rw [filtrar_ips_publicas, List.mem_insertionSort, List.mem_filter] at ha
    exact ha.2
  conv_lhs => rw [filtrar_ips_publicas]
  rw [List.filter_eq_self.mpr hall]
  exact (List.sorted_insertionSort pyOrd _).insertionSort_eq

/-- C6: every address in the IPv4 shared address space `100.64.0.0/10`
(RFC 6598 carrier-grade NAT) is classified public: none of the code's range
checks covers this block. -/
theorem cgn_block_is_public (s : String) (n : Nat)
    (hp : ip_address (pyStrip s.data) = some (IP.v4 n))
    (hr : inNet4 n (v4val 100 64 0 0) 10 = true) :
    is_public s = true := by
  have hn : n / 2 ^ 22 = 401 := by
    simpa [inNet4, v4val] using hr
  simp only [is_public, es_ip_privada, hp, privChecks, IP.is_private,
    IP.is_reserved, IP.is_loopback, IP.is_link_local, IP.is_multicast,
    IP.isV6, IP.site_local_check, is_private4, is_reserved4, is_loopback4,
    is_link_local4, is_multicast4, inNet4, v4val]
  simp only [Nat.reducePow, Nat.reduceDiv, Nat.reduceMul, Nat.reduceAdd,
    Nat.reduceSub, beq_iff_eq, Bool.false_and, Bool.or_false,
    Bool.not_eq_true', Bool.or_eq_false_iff, decide_eq_false_iff_not]
  norm_num
  omega

theorem cgn_block_is_public_witness :
    ip_address (pyStrip ("100.64.0.1" : String).data) = some (IP.v4 1681915905) ∧
      inNet4 1681915905 (v4val 100 64 0 0) 10 = true ∧
      is_public "100.64.0.1" = true :=
  ⟨by decide, by decide,
    cgn_block_is_public "100.64.0.1" 1681915905 (by decide) (by decide)⟩

/-- C7: the classifier is invariant under surrounding whitespace: stripping
the input first does not change the verdict, because the raw string is
trimmed before parsing. -/
theorem is_public_strip_invariant (s : String) :
    is_public s = is_public (pyStripStr s) := by
  simp [is_public, es_ip_privada, pyStripStr, pyStrip_idem]

/-- C8: both core operations are total over their argument types: the
classifier always returns one of the two booleans and the filter always
returns a list; in the embedding no exception escapes either function. -/
theorem core_operations_total (s : String) (l : List String) :
    (es_ip_privada s = true ∨ es_ip_privada s = false) ∧
      ∃ out : List String, filtrar_ips_publicas l = out :=
  ⟨Bool.eq_false_or_eq_true (es_ip_privada s),
    ⟨filtrar_ips_publicas l, rfl⟩⟩

/-- C9: the concrete ground evaluations of §8 of the spec. -/
theorem ground_evaluations :
    is_public "192.168.1.1" = false ∧ is_public "10.0.0.1" = false ∧
    is_public "172.16.0.1" = false ∧ is_public "127.0.0.1" = false ∧
    is_public "169.254.1.1" = false ∧ is_public "224.0.0.1" = false ∧
    is_public "not-an-ip" = false ∧ is_public "::1" = false ∧
    is_public "8.8.8.8" = true ∧ is_public "1.1.1.1" = true ∧
    is_public "93.184.216.34" = true ∧
    is_public "2001:4860:4860::8888" = true ∧
    filtrar_ips_publicas ["192.168.1.1", "8.8.8.8", "1.1.1.1", "10.0.0.1"]
      = ["1.1.1.1", "8.8.8.8"] := by
  decide

/-- C10: the filter deduplicates and sorts by literal string only and never
normalizes addresses: two distinct spellings of the same numeric address
(an expanded and a compressed IPv6 form, and an IPv4 string with and
without a leading space) all survive in their original raw form. -/
theorem no_normalization_of_spellings :
    filtrar_ips_publicas
        ["2001:4860:4860::8888", "2001:4860:4860:0:0:0:0:8888",
          "8.8.8.8", " 8.8.8.8"]
      = [" 8.8.8.8", "2001:4860:4860:0:0:0:0:8888",
          "2001:4860:4860::8888", "8.8.8.8"] := by
  decide

end Eliminador
